import Mathlib

/-!
Verification of the pysgutils repository (gwangyi/pysgutils).

Shallow embedding of the Python sources:
- `src/pysgutils/__init__.py` : `Buffer`, `AlignedBuffer` (alignment-aware buffer)
- `src/pysgutils/sg_lib.py`   : `SGLibCategory`, `SCSIStatusCode`, sense handling
- `src/pysgutils/sg_pt.py`    : `do_scsi_pt`, `SCSIPTObject`, `SCSIPTDevice`

Machine addresses are modelled as natural numbers; Python integers as `Int`
where Python semantics of `-` and `&` on possibly-negative values matters
(`ctypes.addressof` values are nonnegative).  Memory allocations are modelled
as a base address plus a byte-content function indexed from the base;
`ctypes.resize` (realloc) may move the allocation to a caller-supplied new
base address and preserves contents index-wise up to the old size (new bytes
are modelled as zero).  Python exceptions are modelled with `Except`.
-/

/-- Python exceptions raised by the code paths modelled here. -/
inductive PyExn where
  | valueError (msg : String)
  | osError (code : Int) (msg : String)
  | timeoutError (msg : String)
  | indexError
  | attributeError (msg : String)
deriving DecidableEq

/-- Decidable equality for `Except`, used to evaluate runs of the model on
concrete inputs. -/
instance {ε α : Type} [DecidableEq ε] [DecidableEq α] : DecidableEq (Except ε α)
  | .ok a, .ok b =>
      if h : a = b then .isTrue (by rw [h])
      else .isFalse (fun he => h (Except.ok.inj he))
  | .ok _, .error _ => .isFalse (fun he => Except.noConfusion he)
  | .error _, .ok _ => .isFalse (fun he => Except.noConfusion he)
  | .error a, .error b =>
      if h : a = b then .isTrue (by rw [h])
      else .isFalse (fun he => h (Except.error.inj he))

/-- One `ctypes` allocation: its base address, its size in bytes and its
contents, a byte value for each index below `size`. -/
structure Alloc where
  base : Nat
  size : Nat
  byte : Nat → Nat

/-- `ctypes.resize` on an owned buffer: realloc semantics.  The block may
move to a new base address; contents are preserved index-wise up to the old
size, bytes beyond are modelled as zero. -/
def Alloc.realloc (a : Alloc) (newBase newSize : Nat) : Alloc :=
  { base := newBase, size := newSize,
    byte := fun i => if i < a.size then a.byte i else 0 }

/-- State of an `AlignedBuffer` (src/pysgutils/__init__.py, classes `Buffer`
and `AlignedBuffer`): the backing allocation (`self._buffer`), the alignment
(`self._alignment`, `none` models Python `None`), and the exposed view
(`self._as_parameter_`) given by its offset inside the allocation and its
length. -/
structure AlignedBuffer where
  alloc : Alloc
  alignment : Option Nat
  viewOff : Nat
  viewLen : Nat

/-- Absolute address of the exposed view, `ctypes.addressof(self._as_parameter_)`. -/
def AlignedBuffer.viewAddr (b : AlignedBuffer) : Nat :=
  b.alloc.base + b.viewOff

/-- Reading `self[i]`, which goes through the view `self._as_parameter_`. -/
def AlignedBuffer.readByte (b : AlignedBuffer) (i : Nat) : Nat :=
  b.alloc.byte (b.viewOff + i)

/-- Writing `self[i] = v` through the view `self._as_parameter_`. -/
def AlignedBuffer.writeByte (b : AlignedBuffer) (i v : Nat) : AlignedBuffer :=
  { b with alloc := { b.alloc with
      byte := fun j => if j = b.viewOff + i then v else b.alloc.byte j } }

/-- Embeds `AlignedBuffer._align` (src/pysgutils/__init__.py lines 76-83)
followed by the `from_buffer` view construction it performs, returning the
view offset.  The Python code is

  if alignment & (alignment - 1) != 0: raise ValueError(...)
  address = ctypes.addressof(buffer)
  offset = alignment - (address & (alignment - 1))
  return (ctypes.c_char * size).from_buffer(buffer, offset)

Python `&` on ints is two's-complement bitwise and, modelled by `Int.land`
(for `alignment = 0` the mask `alignment - 1` is `-1`).  `from_buffer`
raises `ValueError` for a negative offset and when `size` exceeds the room
left in the allocation past the offset. -/
def AlignedBuffer._align (address size allocSize alignment : Nat) :
    Except PyExn Nat :=
  if Int.land (alignment : Int) ((alignment : Int) - 1) ≠ 0 then
    .error (.valueError "Alignment must be a power of 2")
  else
    let offset : Int := (alignment : Int) - Int.land (address : Int) ((alignment : Int) - 1)
    if offset < 0 then .error (.valueError "offset cannot be negative")
    else if (size : Int) > (allocSize : Int) - offset then
      .error (.valueError "Buffer size too small")
    else .ok offset.toNat

/-- Embeds `AlignedBuffer.__init__` (src/pysgutils/__init__.py lines 55-74)
for an integer `init` (an initial size), with the allocator placing the
backing block at `base`.  With `alignment = None` it defers to
`Buffer.__init__`, which allocates exactly `size` zero bytes and exposes the
whole buffer.  Otherwise it allocates `size + alignment` zero bytes and
exposes the view computed by `_align`; the trailing
`memmove(self._as_parameter_, init, min(len(init), size))` copies zero bytes
here because `init` is `b""` on the integer path. -/
def AlignedBuffer.create (base size : Nat) (alignment : Option Nat) :
    Except PyExn AlignedBuffer :=
  match alignment with
  | none =>
      .ok { alloc := { base := base, size := size, byte := fun _ => 0 },
            alignment := none, viewOff := 0, viewLen := size }
  | some a =>
      match AlignedBuffer._align base size (size + a) a with
      | .error e => .error e
      | .ok off =>
          .ok { alloc := { base := base, size := size + a, byte := fun _ => 0 },
                alignment := some a, viewOff := off, viewLen := size }

/-- The realloc step of `Buffer.resize` (src/pysgutils/__init__.py lines
28-33): `ctypes.resize` is called only when the requested size exceeds the
current allocation size; `newBase` is where the allocator placed the block
in that case. -/
def Buffer.resizeAlloc (a : Alloc) (newBase size : Nat) : Alloc :=
  if size > a.size then a.realloc newBase size else a

/-- Embeds `Buffer.resize` (src/pysgutils/__init__.py lines 28-33): grow the
allocation when needed, then expose the view
`(ctypes.c_char * size).from_buffer(self._buffer)` of `size` bytes at
offset 0. -/
def Buffer.resize (b : AlignedBuffer) (newBase size : Nat) : AlignedBuffer :=
  { b with alloc := Buffer.resizeAlloc b.alloc newBase size,
           viewOff := 0, viewLen := size }

/-- Embeds `AlignedBuffer.resize` (src/pysgutils/__init__.py lines 85-95).
With `self._alignment is None` it defers to `Buffer.resize`.  Otherwise it
remembers the previous aligned view, calls `super().resize(size +
alignment)` (realloc, possibly moving the block to `newBase`), recomputes
the aligned view via `_align`, and when the new view address differs from
the previous view address AND the new offset differs from the previous
offset, performs `memmove(new_view, previous_aligned_buffer,
len(previous_aligned_buffer))`.  The memmove source is modelled as the
previous view contents (snapshot taken before the realloc), the semantics
the copy is intended to have. -/
def AlignedBuffer.resize (b : AlignedBuffer) (newBase size : Nat) :
    Except PyExn AlignedBuffer :=
  match b.alignment with
  | none => .ok (Buffer.resize b newBase size)
  | some a =>
      let prevView : Nat → Nat := fun i => b.alloc.byte (b.viewOff + i)
      let prevLen := b.viewLen
      let prevOff := b.viewOff
      let prevAddr := b.viewAddr
      let alloc' := Buffer.resizeAlloc b.alloc newBase (size + a)
      match AlignedBuffer._align alloc'.base size alloc'.size a with
      | .error e => .error e
      | .ok newOff =>
          let alloc'' :=
            if alloc'.base + newOff ≠ prevAddr ∧ newOff ≠ prevOff then
              { alloc' with byte := fun j =>
                  if newOff ≤ j ∧ j < newOff + prevLen then prevView (j - newOff)
                  else alloc'.byte j }
            else alloc'
          .ok { alloc := alloc'', alignment := some a,
                viewOff := newOff, viewLen := size }

/-! Helper lemmas about the alignment arithmetic. -/

/-- Bitwise and of two nonnegative Python ints is the bitwise and of the
naturals. -/
lemma intLand_natCast (m n : Nat) :
    Int.land (m : Int) (n : Int) = ((m &&& n : Nat) : Int) := rfl

/-- Bitwise and of a nonnegative Python int with `-1` gives it back. -/
lemma intLand_negOne (m : Nat) : Int.land (m : Int) (-1) = (m : Int) := by
  have h : Int.land (m : Int) (-1) = ((Nat.ldiff m 0 : Nat) : Int) := rfl
  rw [h, Nat.ldiff, Nat.bitwise_zero_right]
  simp

lemma natCast_two_pow_sub_one (k : Nat) :
    ((2 ^ k : Nat) : Int) - 1 = ((2 ^ k - 1 : Nat) : Int) := by
  have h : (1 : Nat) ≤ 2 ^ k := Nat.one_le_two_pow
  omega

/-- For a power-of-two alignment, `_align` succeeds whenever the allocation
has room, and returns offset `2^k - address % 2^k`. -/
lemma align_pow2 (k addr size allocSize : Nat)
    (h : size + (2 ^ k - addr % 2 ^ k) ≤ allocSize) :
    AlignedBuffer._align addr size allocSize (2 ^ k) =
      .ok (2 ^ k - addr % 2 ^ k) := by
  have hpos : 0 < 2 ^ k := Nat.two_pow_pos k
  have hr : addr % 2 ^ k < 2 ^ k := Nat.mod_lt _ hpos
  simp only [AlignedBuffer._align, natCast_two_pow_sub_one, intLand_natCast,
    Nat.and_pow_two_sub_one_eq_mod, Nat.mod_self, Nat.cast_zero]
  rw [if_neg (by simp), if_neg (by omega), if_neg (by omega)]
  congr 1
  omega

/-- Explicit form of creation with a power-of-two alignment. -/
lemma create_pow2 (k base size : Nat) :
    AlignedBuffer.create base size (some (2 ^ k)) =
      .ok { alloc := { base := base, size := size + 2 ^ k, byte := fun _ => 0 },
            alignment := some (2 ^ k),
            viewOff := 2 ^ k - base % 2 ^ k, viewLen := size } := by
  have hr : base % 2 ^ k < 2 ^ k := Nat.mod_lt _ (Nat.two_pow_pos k)
  simp only [AlignedBuffer.create]
  rw [align_pow2 k base size (size + 2 ^ k) (by omega)]

/-- Adding the computed alignment offset lands on a multiple of `2^k`. -/
lemma add_align_mod (k n : Nat) : (n + (2 ^ k - n % 2 ^ k)) % 2 ^ k = 0 := by
  have h := Nat.mod_add_div n (2 ^ k)
  have hr : n % 2 ^ k < 2 ^ k := Nat.mod_lt _ (Nat.two_pow_pos k)
  have e : n + (2 ^ k - n % 2 ^ k) = 2 ^ k * (n / 2 ^ k + 1) := by
    rw [Nat.mul_add, Nat.mul_one]
    omega
  rw [e, Nat.mul_mod_right]

/-- Creation with alignment `0` (not Python `None`): the power-of-two check
`alignment & (alignment - 1) != 0` passes (`0 & -1 == 0`), but the computed
offset is `0 - address`, negative for every nonzero base address, so
`from_buffer` raises `ValueError`. -/
lemma create_alignZero (base size : Nat) (h : 0 < base) :
    AlignedBuffer.create base size (some 0) =
      .error (.valueError "offset cannot be negative") := by
  simp only [AlignedBuffer.create, AlignedBuffer._align, Nat.cast_zero, zero_sub]
  rw [show Int.land 0 (-1) = ((0 : Nat) : Int) from intLand_negOne 0,
    intLand_negOne base]
  rw [if_neg (by simp), if_pos (by omega)]

/-! Claim C1 -/

/-- Scenario exercising `AlignedBuffer.resize` across a moving reallocation:
create with alignment 32 and size 4 at base address 16 (aligned offset 16,
view address 32), write byte value 7 at view index 0, then resize to size 8
with the reallocated block placed at base address 24 (aligned offset 8, view
address again 32).  Returns base address, view address and the byte at view
index 0, before and after the resize. -/
def c1Run : Except PyExn (Nat × Nat × Nat × Nat × Nat × Nat) := do
  let b0 ← AlignedBuffer.create 16 4 (some 32)
  let b := b0.writeByte 0 7
  let b' ← b.resize 24 8
  pure (b.alloc.base, b.viewAddr, b.readByte 0,
        b'.alloc.base, b'.viewAddr, b'.readByte 0)

/-- C1: FAILS on the code.  The claim says every byte written through the
aligned view before a resize and still within the new logical length is
unchanged after the resize, even when the backing base address changes.  In
`c1Run` the byte 7 written at view index 0 (still within the new length 8)
reads 0 after the resize: the backing base moved from 16 to 24 and the
aligned offset changed from 16 to 8, but the new view address (24 + 8 = 32)
coincides with the old one (16 + 16 = 32), so the code's guard
`addressof(new) != addressof(previous)` skips the copy-forward while the
realloc moved the contents index-wise. -/
theorem c1_resize_loses_byte : c1Run = .ok (16, 32, 7, 24, 32, 0) := by decide

/-! Claim C4 -/

/-- C4 counterexample: create with alignment 32 at base address 64, itself a
multiple of 32.  The claim says the computed offset is the smallest offset
at least 0 whose absolute address is a multiple of the alignment, hence 0
here; the code computes `alignment - (address & (alignment - 1))` = 32. -/
theorem c4_counterexample :
    64 % 32 = 0 ∧
    (AlignedBuffer.create 64 8 (some 32)).map AlignedBuffer.viewOff = .ok 32 ∧
    ¬ (AlignedBuffer.create 64 8 (some 32)).map AlignedBuffer.viewOff = .ok 0 := by
  decide

/-- C4 (amended): for every power-of-two alignment `2^k`, creation computes
the smallest offset that is at least 1 (not 0) whose absolute address is a
multiple of the alignment; the offset is `2^k - base % 2^k`, it lies in
`[1, 2^k]`, and when the base address is already a multiple of the alignment
the offset is `2^k`, not 0. -/
theorem c4_create_offset (k base size : Nat) :
    (AlignedBuffer.create base size (some (2 ^ k))).map AlignedBuffer.viewOff =
      .ok (2 ^ k - base % 2 ^ k) ∧
    1 ≤ 2 ^ k - base % 2 ^ k ∧
    2 ^ k - base % 2 ^ k ≤ 2 ^ k ∧
    (base + (2 ^ k - base % 2 ^ k)) % 2 ^ k = 0 ∧
    (∀ o, 1 ≤ o → o < 2 ^ k - base % 2 ^ k → (base + o) % 2 ^ k ≠ 0) ∧
    (base % 2 ^ k = 0 → 2 ^ k - base % 2 ^ k = 2 ^ k) := by
  have hr : base % 2 ^ k < 2 ^ k := Nat.mod_lt _ (Nat.two_pow_pos k)
  refine ⟨?_, by omega, by omega, add_align_mod k base, ?_, by omega⟩
  · rw [create_pow2]
    rfl
  · intro o h1 h2 hmod
    rw [Nat.add_mod, Nat.mod_eq_of_lt (show o < 2 ^ k by omega),
      Nat.mod_eq_of_lt (show base % 2 ^ k + o < 2 ^ k by omega)] at hmod
    omega

/-- C4 witness: the amended theorem applied at alignment `2^5 = 32`, base
address 64 (a multiple of 32) and size 8: the inner hypothesis
`base % 2^k = 0` is discharged concretely and the offset is 32. -/
theorem c4_witness :
    (AlignedBuffer.create 64 8 (some 32)).map AlignedBuffer.viewOff = .ok 32 ∧
    (64 + 1) % 32 ≠ 0 ∧
    32 - 64 % 32 = 32 := by
  have h := c4_create_offset 5 64 8
  exact ⟨h.1, h.2.2.2.2.1 1 (by decide) (by decide), h.2.2.2.2.2 (by decide)⟩

/-! Claim C5 -/

/-- C5: for every power-of-two alignment `2^k`, the absolute address of the
exposed aligned view is a multiple of `2^k`, both immediately after creation
and after every resize (whatever the old state and wherever the reallocator
places the block). -/
theorem c5_view_aligned :
    (∀ k base size, (AlignedBuffer.create base size (some (2 ^ k))).map
        (fun b => b.viewAddr % 2 ^ k) = .ok 0) ∧
    (∀ k newBase size (b : AlignedBuffer), b.alignment = some (2 ^ k) →
      (b.resize newBase size).map (fun b' => b'.viewAddr % 2 ^ k) = .ok 0) := by
  constructor
  · intro k base size
    rw [create_pow2]
    simpa [Except.map, AlignedBuffer.viewAddr] using add_align_mod k base
  · intro k newBase size b halign
    simp only [AlignedBuffer.resize, halign]
    set alloc' := Buffer.resizeAlloc b.alloc newBase (size + 2 ^ k) with hA
    have hsz : size + (2 ^ k - alloc'.base % 2 ^ k) ≤ alloc'.size := by
      have hr : alloc'.base % 2 ^ k < 2 ^ k := Nat.mod_lt _ (Nat.two_pow_pos k)
      rw [hA]
      by_cases hc : size + 2 ^ k > b.alloc.size
      · simp only [Buffer.resizeAlloc, if_pos hc, Alloc.realloc]
        rw [hA] at hr
        simp only [Buffer.resizeAlloc, if_pos hc, Alloc.realloc] at hr
        omega
      · simp only [Buffer.resizeAlloc, if_neg hc]
        rw [hA] at hr
        simp only [Buffer.resizeAlloc, if_neg hc] at hr
        omega
    rw [align_pow2 k alloc'.base size alloc'.size hsz]
    simp only [Except.map]
    split
    all_goals simpa [AlignedBuffer.viewAddr] using add_align_mod k alloc'.base

/-- C5 witness: both parts applied concretely, alignment `2^5 = 32`: creation
at base 16 (view address 32) and a resize of that buffer with the block
moved to base 24 (view address again 32). -/
theorem c5_witness :
    (AlignedBuffer.create 16 4 (some 32)).map
      (fun b => b.viewAddr % 32) = .ok 0 ∧
    (AlignedBuffer.resize
        { alloc := { base := 16, size := 36, byte := fun _ => 0 },
          alignment := some 32, viewOff := 16, viewLen := 4 } 24 8).map
      (fun b' => b'.viewAddr % 32) = .ok 0 :=
  ⟨c5_view_aligned.1 5 16 4, c5_view_aligned.2 5 24 8 _ rfl⟩

/-! Claim C6 -/

/-- C6 counterexample: the claim says an `AlignedBuffer` created with
alignment 0 behaves like a plain resizable buffer (creation succeeds with no
offset computation), like the `None` case does.  At base address 8 and size
4, creation with `None` succeeds, but creation with alignment 0 raises a
`ValueError`: `0 & -1 == 0` passes the power-of-two check, and the computed
offset `0 - address = -8` is negative. -/
theorem c6_counterexample :
    AlignedBuffer.create 8 4 (some 0) =
      .error (.valueError "offset cannot be negative") ∧
    AlignedBuffer.create 8 4 none =
      .ok { alloc := { base := 8, size := 4, byte := fun _ => 0 },
            alignment := none, viewOff := 0, viewLen := 4 } :=
  ⟨create_alignZero 8 4 (by decide), rfl⟩

/-- C6 (amended): only alignment `None` behaves like a plain resizable
buffer: creation then allocates exactly the requested size, exposes it at
offset 0 with zero contents, and resize defers to `Buffer.resize` (plain
buffer semantics); with alignment 0 the power-of-two check passes but
creation fails with `ValueError` at every nonzero base address because the
computed offset `0 - address` is negative. -/
theorem c6_alignment_none_vs_zero :
    (∀ base size, AlignedBuffer.create base size none =
      .ok { alloc := { base := base, size := size, byte := fun _ => 0 },
            alignment := none, viewOff := 0, viewLen := size }) ∧
    (∀ (b : AlignedBuffer) newBase size, b.alignment = none →
      b.resize newBase size = .ok (Buffer.resize b newBase size)) ∧
    (∀ base size, 0 < base → AlignedBuffer.create base size (some 0) =
      .error (.valueError "offset cannot be negative")) := by
  refine ⟨fun base size => rfl, fun b newBase size h => ?_, create_alignZero⟩
  simp only [AlignedBuffer.resize, h]

/-- C6 witness: the amended theorem applied at concrete inputs — a resize of
a plain (`None`-alignment) buffer, and a creation with alignment 0 at base
address 8. -/
theorem c6_witness :
    AlignedBuffer.resize
        { alloc := { base := 5, size := 3, byte := fun _ => 0 },
          alignment := none, viewOff := 0, viewLen := 3 } 9 7 =
      .ok (Buffer.resize
        { alloc := { base := 5, size := 3, byte := fun _ => 0 },
          alignment := none, viewOff := 0, viewLen := 3 } 9 7) ∧
    0 < 8 ∧
    AlignedBuffer.create 8 4 (some 0) =
      .error (.valueError "offset cannot be negative") :=
  ⟨c6_alignment_none_vs_zero.2.1 _ 9 7 rfl, by decide,
   c6_alignment_none_vs_zero.2.2 8 4 (by decide)⟩

/-! Claim C3 -/

/-- Embeds `SCSIStatusCode` (src/pysgutils/sg_lib.py lines 105-117), the
SCSI status codes from SAM-4. -/
def SCSIStatusCode.GOOD : Nat := 0x0

def SCSIStatusCode.CHECK_CONDITION : Nat := 0x2

def SCSIStatusCode.CONDITION_MET : Nat := 0x4

def SCSIStatusCode.BUSY : Nat := 0x8

def SCSIStatusCode.INTERMEDIATE : Nat := 0x10

def SCSIStatusCode.INTERMEDIATE_CONDITION_MET : Nat := 0x14

def SCSIStatusCode.RESERVATION_CONFLICT : Nat := 0x18

def SCSIStatusCode.COMMAND_TERMINATED : Nat := 0x22

def SCSIStatusCode.TASK_SET_FULL : Nat := 0x28

def SCSIStatusCode.ACA_ACTIVE : Nat := 0x30

def SCSIStatusCode.TASK_ABORTED : Nat := 0x40

/-- Embeds the `SGLibCategory` enumeration values (src/pysgutils/sg_lib.py
lines 615-708).  Value names follow the source; `RES_CONFLICT` is defined in
the source as `SCSIStatusCode.RESERVATION_CONFLICT`. -/
def SGLibCategory.CLEAN : Nat := 0

def SGLibCategory.NOT_READY : Nat := 2

def SGLibCategory.MEDIUM_HARD : Nat := 3

def SGLibCategory.ILLEGAL_REQ : Nat := 5

def SGLibCategory.UNIT_ATTENTION : Nat := 6

def SGLibCategory.DATA_PROTECT : Nat := 7

def SGLibCategory.INVALID_OP : Nat := 9

def SGLibCategory.COPY_ABORTED : Nat := 10

def SGLibCategory.ABORTED_COMMAND : Nat := 11

def SGLibCategory.MISCOMPARE : Nat := 14

def SGLibCategory.NO_SENSE : Nat := 20

def SGLibCategory.RECOVERED : Nat := 21

def SGLibCategory.RES_CONFLICT : Nat := SCSIStatusCode.RESERVATION_CONFLICT

def SGLibCategory.CONDITION_MET : Nat := 25

def SGLibCategory.BUSY : Nat := 26

def SGLibCategory.TS_FULL : Nat := 27

def SGLibCategory.ACA_ACTIVE : Nat := 28

def SGLibCategory.TASK_ABORTED : Nat := 29

def SGLibCategory.PROTECTION : Nat := 40

def SGLibCategory.MALFORMED : Nat := 97

def SGLibCategory.SENSE : Nat := 98

def SGLibCategory.OTHER : Nat := 99

def SGLibCategory.ILLEGAL_REQ_WITH_INFO : Nat := 17

def SGLibCategory.MEDIUM_HARD_WITH_INFO : Nat := 18

def SGLibCategory.PROTECTION_WITH_INFO : Nat := 41

def SGLibCategory.TIMEOUT : Nat := 33

/-- The category chain exactly as listed in the spec (section 3,
"CommandOutcomeCategory"), in the spec's listing order; spec names
`RESERVATION_CONFLICT` and `TASK_SET_FULL` are the source's `RES_CONFLICT`
and `TS_FULL`. -/
def specCategoryChain : List Nat :=
  [ SGLibCategory.CLEAN, SGLibCategory.NOT_READY, SGLibCategory.MEDIUM_HARD,
    SGLibCategory.ILLEGAL_REQ, SGLibCategory.UNIT_ATTENTION,
    SGLibCategory.DATA_PROTECT, SGLibCategory.INVALID_OP,
    SGLibCategory.COPY_ABORTED, SGLibCategory.ABORTED_COMMAND,
    SGLibCategory.MISCOMPARE, SGLibCategory.NO_SENSE, SGLibCategory.RECOVERED,
    SGLibCategory.RES_CONFLICT, SGLibCategory.CONDITION_MET,
    SGLibCategory.BUSY, SGLibCategory.TS_FULL, SGLibCategory.ACA_ACTIVE,
    SGLibCategory.TASK_ABORTED, SGLibCategory.PROTECTION,
    SGLibCategory.TIMEOUT, SGLibCategory.MALFORMED, SGLibCategory.SENSE,
    SGLibCategory.OTHER ]

/-- A list of naturals is strictly increasing from each element to the next. -/
def strictlyIncreasing : List Nat → Bool
  | [] => true
  | [_] => true
  | a :: b :: rest => decide (a < b) && strictlyIncreasing (b :: rest)

/-- C3 counterexample: the chain as listed in the spec is NOT strictly
increasing: the adjacent pair at positions 18 and 19 is
`PROTECTION = 40` followed by `TIMEOUT = 33`, and `40 < 33` fails. -/
theorem c3_counterexample :
    strictlyIncreasing specCategoryChain = false ∧
    specCategoryChain[18]? = some 40 ∧ specCategoryChain[19]? = some 33 := by
  decide

/-- C3 (amended): the enumeration has exactly the numeric values listed in
the spec, and the chain as listed is strictly increasing everywhere except
at the single adjacent pair `PROTECTION (40)` followed by `TIMEOUT (33)`:
removing the element at index 19 (`TIMEOUT`) leaves a strictly increasing
chain, and `TIMEOUT` is numerically below `PROTECTION`. -/
theorem c3_category_values :
    specCategoryChain =
      [0, 2, 3, 5, 6, 7, 9, 10, 11, 14, 20, 21, 24, 25, 26, 27, 28, 29, 40,
       33, 97, 98, 99] ∧
    strictlyIncreasing (specCategoryChain.eraseIdx 19) = true ∧
    SGLibCategory.TIMEOUT < SGLibCategory.PROTECTION := by
  decide

/-! Claim C7 -/

/-- Byte `i` of a sense buffer; out-of-range reads give 0, matching the
spec's "if length allows else 0". -/
def senseByte (sense : List Nat) (i : Nat) : Nat := sense.getD i 0

/-- Normalized sense header, embedding `SCSISenseHdr`
(src/pysgutils/sg_lib.py lines 236-253). -/
structure SCSISenseHdr where
  response_code : Nat
  sense_key : Nat
  asc : Nat
  ascq : Nat
  byte4 : Nat
  byte5 : Nat
  byte6 : Nat
  additional_length : Nat
deriving DecidableEq

/-- Modelled from the spec: the sense-normalization routine
`sg_scsi_normalize_sense` is implemented in the native `libsgutils2` C
library; src/pysgutils/sg_lib.py (lines 256-274) only wraps it via ctypes.
Modelled from spec sections 4.2 and 6: the response code is derived from
byte 0 (its low 7 bits; bit 7 is the fixed-format valid bit).  Response code
0x00 gives none; 0x70/0x71 (fixed format) maps sense_key from byte 2 low
nibble, asc/ascq from bytes 12/13 (0 when out of range), information-field
bytes into byte4..byte6, additional_length forced to 0; 0x72/0x73
(descriptor format) maps sense_key from byte 1 low nibble, asc/ascq from
bytes 2/3, additional_length from byte 7, byte4..byte6 reserved (zero);
any other response code gives none. -/
def sg_scsi_normalize_sense (sense : List Nat) : Option SCSISenseHdr :=
  let rc := senseByte sense 0 &&& 0x7f
  if rc = 0x70 ∨ rc = 0x71 then
    some { response_code := rc, sense_key := senseByte sense 2 &&& 0xf,
           asc := senseByte sense 12, ascq := senseByte sense 13,
           byte4 := senseByte sense 3, byte5 := senseByte sense 4,
           byte6 := senseByte sense 5, additional_length := 0 }
  else if rc = 0x72 ∨ rc = 0x73 then
    some { response_code := rc, sense_key := senseByte sense 1 &&& 0xf,
           asc := senseByte sense 2, ascq := senseByte sense 3,
           byte4 := 0, byte5 := 0, byte6 := 0,
           additional_length := senseByte sense 7 }
  else none

/-- C7: for every sense byte sequence whose derived response code is 0x00,
normalization returns none; in particular it returns none on an all-zero
18-byte sense buffer. -/
theorem c7_normalize_zero_response :
    (∀ sense : List Nat, senseByte sense 0 &&& 0x7f = 0 →
      sg_scsi_normalize_sense sense = none) ∧
    sg_scsi_normalize_sense (List.replicate 18 0) = none := by
  constructor
  · intro sense h
    simp only [sg_scsi_normalize_sense, h]
    norm_num
  · rfl

/-- C7 witness: the universally quantified part applied to the concrete
sense buffer `[0, 0, 0]`, whose response code is 0. -/
theorem c7_witness :
    senseByte [0, 0, 0] 0 &&& 0x7f = 0 ∧
    sg_scsi_normalize_sense [0, 0, 0] = none :=
  ⟨by decide, c7_normalize_zero_response.1 [0, 0, 0] (by decide)⟩

/-! Claim C2 -/

/-- Embeds the module-level `do_scsi_pt` wrapper (src/pysgutils/sg_pt.py
lines 154-172) interpreting the raw transport return code `ret` of the
native `libsgutils2.do_scsi_pt` call (the external transport collaborator);
`strerror` is the external `safe_strerror` collaborator.  Negative `ret`
raises `OSError(-ret, safe_strerror(-ret))`; `ret == 1` raises
`ValueError("SCSI_PT_DO_BAD_PARAMS (1)")`; `ret == 2` raises
`TimeoutError("SCSI_PT_DO_TIMEOUT (2)")` (Python 3 branch); otherwise the
wrapper returns normally. -/
def do_scsi_pt (strerror : Int → String) (ret : Int) : Except PyExn Unit :=
  if ret < 0 then .error (.osError (-ret) (strerror (-ret)))
  else if ret = 1 then .error (.valueError "SCSI_PT_DO_BAD_PARAMS (1)")
  else if ret = 2 then .error (.timeoutError "SCSI_PT_DO_TIMEOUT (2)")
  else .ok ()

/-- C2: `do_scsi_pt` maps every negative transport return value `r` to an
OS-error carrying `-r` and its strerror message, return value 1 to a
bad-parameters `ValueError`, return value 2 to a `TimeoutError`, and return
value 0 to a successful return. -/
theorem c2_do_scsi_pt_mapping (strerror : Int → String) :
    (∀ r : Int, r < 0 →
      do_scsi_pt strerror r = .error (.osError (-r) (strerror (-r)))) ∧
    do_scsi_pt strerror 1 = .error (.valueError "SCSI_PT_DO_BAD_PARAMS (1)") ∧
    do_scsi_pt strerror 2 = .error (.timeoutError "SCSI_PT_DO_TIMEOUT (2)") ∧
    do_scsi_pt strerror 0 = .ok () := by
  refine ⟨fun r hr => ?_, ?_, ?_, ?_⟩
  · simp only [do_scsi_pt, if_pos hr]
  · norm_num [do_scsi_pt]
  · norm_num [do_scsi_pt]
  · norm_num [do_scsi_pt]

/-- C2 witness: the mapping applied with a concrete strerror function at the
concrete return values -5, 1, 2 and 0. -/
theorem c2_witness :
    (-5 : Int) < 0 ∧
    do_scsi_pt (fun _ => "err") (-5) = .error (.osError 5 "err") ∧
    do_scsi_pt (fun _ => "err") 1 =
      .error (.valueError "SCSI_PT_DO_BAD_PARAMS (1)") ∧
    do_scsi_pt (fun _ => "err") 2 =
      .error (.timeoutError "SCSI_PT_DO_TIMEOUT (2)") ∧
    do_scsi_pt (fun _ => "err") 0 = .ok () := by
  have h := c2_do_scsi_pt_mapping (fun _ => "err")
  exact ⟨by decide, by simpa using h.1 (-5) (by decide), h.2.1, h.2.2.1, h.2.2.2⟩

/-! Claim C8 -/

/-- Python-level state of a `SCSIPTObject` (src/pysgutils/sg_pt.py lines
321-352): `cdb`, `sense`, `data_in`, `data_out`, `packet_id`, `tag` and
`task_management` model the `self._cdb` ... `self._task_management`
attributes read back by the properties; `nativeCdb` models the CDB attached
to the opaque native object by `set_scsi_pt_cdb` (src/pysgutils/sg_pt.py
lines 91-94); `timeout` models the `timeout` class attribute (default 5). -/
structure SCSIPTObject where
  nativeCdb : Option (List Nat)
  cdb : Option (List Nat)
  sense : Option (List Nat)
  data_in : Option (List Nat)
  data_out : Option (List Nat)
  packet_id : Option Int
  tag : Option Int
  task_management : Option Int
  timeout : Int
deriving DecidableEq

/-- Embeds `SCSIPTObject.__init__` (src/pysgutils/sg_pt.py lines 337-352),
assuming the native `construct_scsi_pt_obj` succeeds: every attached-buffer
attribute starts as `None` (the Constructed state). -/
def SCSIPTObject.construct : SCSIPTObject :=
  { nativeCdb := none, cdb := none, sense := none, data_in := none,
    data_out := none, packet_id := none, tag := none,
    task_management := none, timeout := 5 }

/-- Embeds the `cdb` property setter (src/pysgutils/sg_pt.py lines 364-370):

  set_scsi_pt_cdb(self._pt_obj, val)
  if isinstance(val, sg_lib.SCSICommand): self._cdb = val
  else: self._cdb = sg_lib.SCSICommand(bytes(val))

`set_scsi_pt_cdb` attaches the CDB to the native object (recorded in
`nativeCdb`); the subsequent `isinstance(val, sg_lib.SCSICommand)` evaluates
the attribute `sg_lib.SCSICommand`, and the module `sg_lib`
(src/pysgutils/sg_lib.py) defines no name `SCSICommand`, so the attribute
access raises `AttributeError` and `self._cdb` is never assigned.  Returns
the post-raise object state together with the raised exception. -/
def SCSIPTObject.setCdb (o : SCSIPTObject) (val : List Nat) :
    SCSIPTObject × Except PyExn Unit :=
  ({ o with nativeCdb := some val },
   .error (.attributeError
     "module pysgutils.sg_lib has no attribute SCSICommand"))

/-- C8: FAILS on the code.  The claim says assigning a CDB to a freshly
constructed context succeeds with no other setter called first, after which
the `cdb` accessor exposes the attached CDB.  Assigning the INQUIRY CDB
`[0x12, 0, 0, 0, 0x24, 0]` to a fresh context does attach it to the native
object, but the setter then raises `AttributeError` (the referenced class
`sg_lib.SCSICommand` does not exist in src/pysgutils/sg_lib.py) and the
`cdb` accessor still returns `None`. -/
theorem c8_setter_raises :
    (SCSIPTObject.construct.setCdb [0x12, 0, 0, 0, 0x24, 0]).2 =
      .error (.attributeError
        "module pysgutils.sg_lib has no attribute SCSICommand") ∧
    (SCSIPTObject.construct.setCdb [0x12, 0, 0, 0, 0x24, 0]).1.cdb = none ∧
    (SCSIPTObject.construct.setCdb [0x12, 0, 0, 0, 0x24, 0]).1.nativeCdb =
      some [0x12, 0, 0, 0, 0x24, 0] := by
  decide

/-! Claims C9 and C10 -/

/-- Embeds `SCSIPTDevice._stack`, the process-wide ambient device stack
(src/pysgutils/sg_pt.py line 275): a Python list used as a stack via
`append`/`pop`, with the top at the END of the list; it is initialized to
`[None]`.  `α` stands for an opened device handle. -/
def SCSIPTDevice.freshStack (α : Type) : List (Option α) := [none]

/-- Embeds `SCSIPTDevice.enter` (src/pysgutils/sg_pt.py lines 304-305):
`self._stack.append(self)`. -/
def SCSIPTDevice.enter {α : Type} (dev : α) (s : List (Option α)) :
    List (Option α) :=
  s ++ [some dev]

/-- Embeds `SCSIPTDevice.exit` (src/pysgutils/sg_pt.py lines 307-308):
`self._stack.pop()` removes the last element whatever it is — `self` is not
consulted; `pop` on an empty list raises `IndexError`. -/
def SCSIPTDevice.exit {α : Type} (_dev : α) (s : List (Option α)) :
    Except PyExn (List (Option α)) :=
  if s.isEmpty then .error .indexError else .ok s.dropLast

/-- Embeds `SCSIPTDevice.current` (src/pysgutils/sg_pt.py lines 310-312):
`cls._stack[-1]`, the last element; indexing an empty list raises
`IndexError`. -/
def SCSIPTDevice.current {α : Type} (s : List (Option α)) :
    Except PyExn (Option α) :=
  match s.getLast? with
  | none => .error .indexError
  | some x => .ok x

/-- C10: `exit` pops the top of the ambient stack unconditionally — the
handle it is called on is not consulted; hence `enter` immediately followed
by `exit` restores the stack exactly (so `current` returns afterwards
exactly what it returned before); and on a fresh stack (initialized to
`[None]`) `current` returns none rather than raising. -/
theorem c10_ambient_stack :
    (∀ (α : Type) (h h2 : α) (s : List (Option α)),
      SCSIPTDevice.exit h s = SCSIPTDevice.exit h2 s) ∧
    (∀ (α : Type) (h h2 : α) (s : List (Option α)),
      SCSIPTDevice.exit h (SCSIPTDevice.enter h2 s) = .ok s) ∧
    (∀ (α : Type),
      SCSIPTDevice.current (SCSIPTDevice.freshStack α) = .ok none) := by
  refine ⟨fun α h h2 s => rfl, fun α h h2 s => ?_, fun α => rfl⟩
  simp [SCSIPTDevice.exit, SCSIPTDevice.enter]

/-- Embeds the `SCSIPTObject.do_scsi_pt` method (src/pysgutils/sg_pt.py
lines 471-479); named `doScsiPt` here because the method shares its source
name with the module-level wrapper it calls.  `device` is the explicit
device-handle argument (`None`
models an omitted argument); when it is `None` the ambient
`SCSIPTDevice.current()` is consulted, and if that is also `None` a
`ValueError("Device is not specified")` is raised.  Otherwise the native
call is performed through the external transport collaborator `transport`
(mapping the device handle and effective timeout to the raw return code)
and its result is interpreted by the module-level `do_scsi_pt` wrapper. -/
def SCSIPTObject.doScsiPt {α : Type} (strerror : Int → String)
    (transport : α → Int → Int) (stack : List (Option α)) (o : SCSIPTObject)
    (timeout : Option Int) (device : Option α) : Except PyExn Unit :=
  match (match device with
         | some d => Except.ok (some d)
         | none => SCSIPTDevice.current stack) with
  | .error e => .error e
  | .ok none => .error (.valueError "Device is not specified")
  | .ok (some d) => do_scsi_pt strerror (transport d (timeout.getD o.timeout))

/-- C9: calling the execute method with no explicit device handle while the
ambient stack's `current()` is none fails with
`ValueError("Device is not specified")`, whatever the transport collaborator
would return — i.e. before any transport submission is attempted. -/
theorem c9_no_device {α : Type} (strerror : Int → String)
    (transport : α → Int → Int) (stack : List (Option α)) (o : SCSIPTObject)
    (timeout : Option Int)
    (h : SCSIPTDevice.current stack = .ok none) :
    SCSIPTObject.doScsiPt strerror transport stack o timeout none =
      .error (.valueError "Device is not specified") := by
  simp only [SCSIPTObject.doScsiPt, h]

/-- C9 witness: the theorem applied on the fresh ambient stack (whose
`current()` is none) with concrete collaborators and a fresh context. -/
theorem c9_witness :
    SCSIPTDevice.current (SCSIPTDevice.freshStack Nat) = .ok none ∧
    SCSIPTObject.doScsiPt (fun _ => "err") (fun _ _ => 0)
        (SCSIPTDevice.freshStack Nat) SCSIPTObject.construct none none =
      .error (.valueError "Device is not specified") :=
  ⟨rfl, c9_no_device (fun _ => "err") (fun _ _ => 0)
    (SCSIPTDevice.freshStack Nat) SCSIPTObject.construct none rfl⟩
